import Mathlib

/-!
Shallow embedding of the Lattice desktop backend (src/src-tauri/src/main.rs).

The program exposes five Tauri commands over a JSON-file-backed key-value
store (`tauri-plugin-store`, file `settings.json`):

* `get_default_folder`, `set_default_folder`, `clear_default_folder`
* `get_last_opened_folder`, `set_last_opened_folder`

The store is modelled as an association list from string keys to JSON
values.  `store.set` mutates the in-memory map; `store.save` copies the
in-memory map to disk; `store.delete` removes a key and returns whether it
was present (it cannot fail).  Each command first opens the store, which
may fail; `save` may fail as well.  These two fallible steps are modelled
by an environment `Env` carrying a success flag and an error message for
each.  A command returns its `Result` together with the store state after
the call, so that a mutation performed before a failing `save` remains
visible, exactly as in the Rust code.
-/

/-- JSON values, as in `serde_json::Value`. -/
inductive Json where
  | null : Json
  | bool (b : Bool) : Json
  | num (n : Int) : Json
  | str (s : String) : Json
  | arr (elems : List Json) : Json
  | obj (fields : List (String × Json)) : Json
deriving Repr

/-- `serde_json::Value::as_str`: `Some` exactly on JSON strings. -/
def Json.as_str : Json → Option String
  | .str s => some s
  | _ => none

/-- Whether a JSON value is a string. -/
def Json.isStr : Json → Bool
  | .str _ => true
  | _ => false

/-- The store's key-value map, an ordered association list as in the
plugin's underlying JSON object map. -/
abbrev StoreMap := List (String × Json)

/-- `store.get key`: the value bound to the first occurrence of `key`. -/
def storeGet : StoreMap → String → Option Json
  | [], _ => none
  | (k', v) :: t, k => if k' = k then some v else storeGet t k

/-- `store.set key value`: replace the binding in place, or append a new
one, as the plugin's map insert does. -/
def storeSet : StoreMap → String → Json → StoreMap
  | [], k, v => [(k, v)]
  | (k', v') :: t, k, v =>
    if k' = k then (k, v) :: t else (k', v') :: storeSet t k v

/-- `store.delete key`: remove the key, reporting whether it was present.
The plugin's delete returns a `bool` and cannot fail. -/
def storeDelete (m : StoreMap) (k : String) : Bool × StoreMap :=
  (m.any (fun p => p.1 = k), m.filter (fun p => p.1 ≠ k))

/-- The state of the `settings.json` store: the in-memory map held by the
plugin and the map last persisted to disk. -/
structure StoreState where
  inMem : StoreMap
  disk : StoreMap
deriving Repr

/-- A freshly created store: nothing in memory, nothing on disk. -/
def freshStore : StoreState := ⟨[], []⟩

/-- Outcome of the fallible steps of one command: whether
`app.store("settings.json")` succeeds, whether `store.save()` succeeds,
and the error strings produced on failure (`e.to_string()`). -/
structure Env where
  openOk : Bool
  saveOk : Bool
  openErrMsg : String
  saveErrMsg : String
deriving Repr, DecidableEq

/-- An environment in which both the store open and the save succeed. -/
def envOkOk : Env := ⟨true, true, "", ""⟩

/-- An environment in which opening the store fails. -/
def envOpenFail : Env := ⟨false, true, "open failed", ""⟩

/-- An environment in which the store opens but `save` fails. -/
def envSaveFail : Env := ⟨true, false, "", "save failed"⟩

/-- `get_default_folder` (main.rs lines 33-43): open the store, look up
`"default_folder"`, return the value as a string when it is one, else
`None`; only the open can fail. -/
def get_default_folder (env : Env) (st : StoreState) :
    Except String (Option String) × StoreState :=
  if env.openOk then
    match storeGet st.inMem "default_folder" with
    | some value =>
      match value.as_str with
      | some folder => (.ok (some folder), st)
      | none => (.ok none, st)
    | none => (.ok none, st)
  else
    (.error env.openErrMsg, st)

/-- `set_default_folder` (main.rs lines 47-52): open the store, set
`"default_folder"` to the string, then save; a failing save still leaves
the new value in the in-memory store. -/
def set_default_folder (env : Env) (folder : String) (st : StoreState) :
    Except String Unit × StoreState :=
  if env.openOk then
    let m := storeSet st.inMem "default_folder" (Json.str folder)
    if env.saveOk then
      (.ok (), ⟨m, m⟩)
    else
      (.error env.saveErrMsg, ⟨m, st.disk⟩)
  else
    (.error env.openErrMsg, st)

/-- `get_last_opened_folder` (main.rs lines 56-66): same shape as
`get_default_folder`, on key `"last_opened_folder"`. -/
def get_last_opened_folder (env : Env) (st : StoreState) :
    Except String (Option String) × StoreState :=
  if env.openOk then
    match storeGet st.inMem "last_opened_folder" with
    | some value =>
      match value.as_str with
      | some folder => (.ok (some folder), st)
      | none => (.ok none, st)
    | none => (.ok none, st)
  else
    (.error env.openErrMsg, st)

/-- `set_last_opened_folder` (main.rs lines 70-75): same shape as
`set_default_folder`, on key `"last_opened_folder"`. -/
def set_last_opened_folder (env : Env) (folder : String) (st : StoreState) :
    Except String Unit × StoreState :=
  if env.openOk then
    let m := storeSet st.inMem "last_opened_folder" (Json.str folder)
    if env.saveOk then
      (.ok (), ⟨m, m⟩)
    else
      (.error env.saveErrMsg, ⟨m, st.disk⟩)
  else
    (.error env.openErrMsg, st)

/-- `clear_default_folder` (main.rs lines 79-84): open the store, delete
`"default_folder"` discarding the returned flag, then save. -/
def clear_default_folder (env : Env) (st : StoreState) :
    Except String Unit × StoreState :=
  if env.openOk then
    let m := (storeDelete st.inMem "default_folder").2
    if env.saveOk then
      (.ok (), ⟨m, m⟩)
    else
      (.error env.saveErrMsg, ⟨m, st.disk⟩)
  else
    (.error env.openErrMsg, st)

/-- One of the five commands registered in `main` (main.rs lines 98-104). -/
inductive Cmd where
  | getDefault : Cmd
  | setDefault (folder : String) : Cmd
  | getLast : Cmd
  | setLast (folder : String) : Cmd
  | clearDefault : Cmd
deriving Repr, DecidableEq

/-- The store state after running one command. -/
def runCmd (env : Env) (c : Cmd) (st : StoreState) : StoreState :=
  match c with
  | .getDefault => (get_default_folder env st).2
  | .setDefault folder => (set_default_folder env folder st).2
  | .getLast => (get_last_opened_folder env st).2
  | .setLast folder => (set_last_opened_folder env folder st).2
  | .clearDefault => (clear_default_folder env st).2

/-- The store state after a sequence of commands, each under its own
environment. -/
def runCmds : List (Env × Cmd) → StoreState → StoreState
  | [], st => st
  | (env, c) :: rest, st => runCmds rest (runCmd env c st)

/-- A map entry is well-shaped when its key is one of the two settings
keys and its value is a JSON string. -/
def entryShapeOk (p : String × Json) : Bool :=
  (p.1 = "default_folder" || p.1 = "last_opened_folder") && p.2.isStr

/-- A map is well-shaped when every entry is. -/
def storeShapeOk (m : StoreMap) : Bool :=
  m.all entryShapeOk

/-- A settings field is well-shaped when it is absent or a JSON string. -/
def fieldShapeOk (m : StoreMap) (k : String) : Bool :=
  match storeGet m k with
  | some v => v.isStr
  | none => true

/-- A store state is well-shaped when both its in-memory map and its disk
map are. -/
def stateShapeOk (st : StoreState) : Bool :=
  storeShapeOk st.inMem && storeShapeOk st.disk

/-- An example store in which `"default_folder"` holds a non-string. -/
def numStore : StoreState := ⟨[("default_folder", Json.num 3)], []⟩

/-- Setting a key makes a lookup of that key return the new value. -/
theorem storeGet_storeSet_self (m : StoreMap) (k : String) (v : Json) :
    storeGet (storeSet m k v) k = some v := by
  induction m with
  | nil => simp [storeSet, storeGet]
  | cons p t ih =>
    obtain ⟨k', v'⟩ := p
    by_cases h : k' = k
    · simp [storeSet, storeGet, h]
    · simp [storeSet, storeGet, h, ih]

/-- Setting one key leaves lookups of any other key unchanged. -/
theorem storeGet_storeSet_ne (m : StoreMap) (k k2 : String) (v : Json)
    (h : k ≠ k2) : storeGet (storeSet m k v) k2 = storeGet m k2 := by
  induction m with
  | nil => simp [storeSet, storeGet, h]
  | cons p t ih =>
    obtain ⟨k', v'⟩ := p
    by_cases hk : k' = k
    · subst hk
      simp [storeSet, storeGet, h]
    · simp [storeSet, storeGet, hk, ih]

/-- Deleting a key makes a lookup of that key return nothing. -/
theorem storeGet_storeDelete_self (m : StoreMap) (k : String) :
    storeGet (storeDelete m k).2 k = none := by
  induction m with
  | nil => simp [storeDelete, storeGet]
  | cons p t ih =>
    obtain ⟨k', v'⟩ := p
    by_cases h : k' = k
    · simpa [storeDelete, storeGet, h] using ih
    · simpa [storeDelete, storeGet, h] using ih

/-- Removing all bindings of one key leaves lookups of another unchanged. -/
theorem storeGet_filter_ne (m : StoreMap) (k k2 : String) (h : k ≠ k2) :
    storeGet (m.filter (fun p => p.1 ≠ k)) k2 = storeGet m k2 := by
  induction m with
  | nil => rfl
  | cons p t ih =>
    obtain ⟨k', v'⟩ := p
    simp only [ne_eq, decide_not] at ih ⊢
    by_cases hk : k' = k
    · subst hk
      have h2 : ¬ k' = k2 := h
      simp [List.filter_cons, storeGet, h2, ih]
    · by_cases hk2 : k' = k2
      · simp [List.filter_cons, storeGet, hk, hk2, Ne.symm h]
      · simp [List.filter_cons, storeGet, hk, hk2, ih]

/-- Deleting one key leaves lookups of any other key unchanged. -/
theorem storeGet_storeDelete_ne (m : StoreMap) (k k2 : String)
    (h : k ≠ k2) : storeGet (storeDelete m k).2 k2 = storeGet m k2 := by
  simpa [storeDelete] using storeGet_filter_ne m k k2 h

/-- A successful lookup returns a value bound in the map. -/
theorem storeGet_mem (m : StoreMap) (k : String) (v : Json)
    (h : storeGet m k = some v) : (k, v) ∈ m := by
  induction m with
  | nil => simp [storeGet] at h
  | cons p t ih =>
    obtain ⟨k', v'⟩ := p
    by_cases hk : k' = k
    · subst hk
      simp [storeGet] at h
      simp [h]
    · simp [storeGet, hk] at h
      simp [ih h]

/-- Neither get command changes the store state. -/
theorem get_default_folder_state (e : Env) (st : StoreState) :
    (get_default_folder e st).2 = st := by
  cases ho : e.openOk
  · simp [get_default_folder, ho]
  · cases hg : storeGet st.inMem "default_folder" with
    | none => simp [get_default_folder, ho, hg]
    | some v => cases v <;> simp [get_default_folder, ho, hg, Json.as_str]

/-- The other get command changes the store state no more. -/
theorem get_last_opened_folder_state (e : Env) (st : StoreState) :
    (get_last_opened_folder e st).2 = st := by
  cases ho : e.openOk
  · simp [get_last_opened_folder, ho]
  · cases hg : storeGet st.inMem "last_opened_folder" with
    | none => simp [get_last_opened_folder, ho, hg]
    | some v => cases v <;> simp [get_last_opened_folder, ho, hg, Json.as_str]

/-- When the store opens, `get_default_folder` returns exactly the stored
value read back as a string. -/
theorem get_default_folder_ok (e : Env) (st : StoreState)
    (h : e.openOk = true) :
    (get_default_folder e st).1 =
      .ok ((storeGet st.inMem "default_folder").bind Json.as_str) := by
  cases hg : storeGet st.inMem "default_folder" with
  | none => simp [get_default_folder, h, hg]
  | some v => cases v <;> simp [get_default_folder, h, hg, Json.as_str]

/-- When the store opens, `get_last_opened_folder` returns exactly the
stored value read back as a string. -/
theorem get_last_opened_folder_ok (e : Env) (st : StoreState)
    (h : e.openOk = true) :
    (get_last_opened_folder e st).1 =
      .ok ((storeGet st.inMem "last_opened_folder").bind Json.as_str) := by
  cases hg : storeGet st.inMem "last_opened_folder" with
  | none => simp [get_last_opened_folder, h, hg]
  | some v => cases v <;> simp [get_last_opened_folder, h, hg, Json.as_str]

/-- Setting a well-shaped entry preserves a well-shaped map. -/
theorem storeShapeOk_storeSet (m : StoreMap) (k : String) (v : Json)
    (hm : storeShapeOk m = true) (hp : entryShapeOk (k, v) = true) :
    storeShapeOk (storeSet m k v) = true := by
  induction m with
  | nil => simp [storeSet, storeShapeOk, hp]
  | cons p t ih =>
    obtain ⟨k', v'⟩ := p
    simp only [storeShapeOk, List.all_cons, Bool.and_eq_true] at hm
    by_cases hk : k' = k
    · simp [storeSet, storeShapeOk, hk, hp, hm.2]
    · have ht := ih hm.2
      simp only [storeShapeOk] at ht
      simp [storeSet, storeShapeOk, hk, hm.1, ht]

/-- Deleting a key preserves a well-shaped map. -/
theorem storeShapeOk_storeDelete (m : StoreMap) (k : String)
    (hm : storeShapeOk m = true) :
    storeShapeOk (storeDelete m k).2 = true := by
  simp only [storeShapeOk, storeDelete, List.all_eq_true] at hm ⊢
  intro p hp
  exact hm p (List.mem_of_mem_filter hp)

/-- Each of the five commands preserves the well-shaped store invariant,
whatever the open and save outcomes. -/
theorem stateShapeOk_runCmd (e : Env) (c : Cmd) (st : StoreState)
    (h : stateShapeOk st = true) : stateShapeOk (runCmd e c st) = true := by
  simp only [stateShapeOk, Bool.and_eq_true] at h
  obtain ⟨h1, h2⟩ := h
  cases c with
  | getDefault =>
    simp [runCmd, get_default_folder_state, stateShapeOk, h1, h2]
  | getLast =>
    simp [runCmd, get_last_opened_folder_state, stateShapeOk, h1, h2]
  | setDefault folder =>
    have hset := storeShapeOk_storeSet st.inMem "default_folder"
      (Json.str folder) h1 (by simp [entryShapeOk, Json.isStr])
    cases ho : e.openOk <;> cases hs : e.saveOk <;>
      simp [runCmd, set_default_folder, ho, hs, stateShapeOk, h1, h2, hset]
  | setLast folder =>
    have hset := storeShapeOk_storeSet st.inMem "last_opened_folder"
      (Json.str folder) h1 (by simp [entryShapeOk, Json.isStr])
    cases ho : e.openOk <;> cases hs : e.saveOk <;>
      simp [runCmd, set_last_opened_folder, ho, hs, stateShapeOk, h1, h2, hset]
  | clearDefault =>
    have hdel := storeShapeOk_storeDelete st.inMem "default_folder" h1
    cases ho : e.openOk <;> cases hs : e.saveOk <;>
      simp [runCmd, clear_default_folder, ho, hs, stateShapeOk, h1, h2, hdel]

/-- Any command sequence preserves the well-shaped store invariant. -/
theorem stateShapeOk_runCmds (ops : List (Env × Cmd)) (st : StoreState)
    (h : stateShapeOk st = true) : stateShapeOk (runCmds ops st) = true := by
  induction ops generalizing st with
  | nil => simpa [runCmds] using h
  | cons p rest ih =>
    obtain ⟨e, c⟩ := p
    exact ih _ (stateShapeOk_runCmd e c st h)

/-- In a well-shaped map each field is absent or a string. -/
theorem fieldShapeOk_of_storeShapeOk (m : StoreMap) (k : String)
    (h : storeShapeOk m = true) : fieldShapeOk m k = true := by
  cases hg : storeGet m k with
  | none => simp [fieldShapeOk, hg]
  | some v =>
    have hmem := storeGet_mem m k v hg
    simp only [storeShapeOk, List.all_eq_true] at h
    have hv := h _ hmem
    simp only [entryShapeOk, Bool.and_eq_true] at hv
    simp [fieldShapeOk, hg, hv.2]

/-- C1: for every string s, `set_default_folder s` followed by
`get_default_folder` (both store opens and the save succeeding) returns
`Some s`. -/
theorem set_then_get_default_folder (e1 e2 : Env) (st : StoreState)
    (s : String) (h1 : e1.openOk = true) (h2 : e1.saveOk = true)
    (h3 : e2.openOk = true) :
    (get_default_folder e2 (set_default_folder e1 s st).2).1 =
      .ok (some s) := by
  simp [set_default_folder, h1, h2, get_default_folder_ok e2 _ h3,
    storeGet_storeSet_self, Json.as_str]

/-- Witness for C1 at a concrete folder string and the fresh store. -/
theorem set_then_get_default_folder_witness :
    envOkOk.openOk = true ∧ envOkOk.saveOk = true ∧
      (get_default_folder envOkOk
        (set_default_folder envOkOk "/home/user/docs" freshStore).2).1 =
        .ok (some "/home/user/docs") :=
  ⟨rfl, rfl,
    set_then_get_default_folder envOkOk envOkOk freshStore "/home/user/docs"
      rfl rfl rfl⟩

/-- C2: `clear_default_folder` followed by `get_default_folder` (store
opens and the save succeeding) returns `None`, from any prior state. -/
theorem clear_then_get_default_folder (e1 e2 : Env) (st : StoreState)
    (h1 : e1.openOk = true) (h2 : e1.saveOk = true)
    (h3 : e2.openOk = true) :
    (get_default_folder e2 (clear_default_folder e1 st).2).1 = .ok none := by
  simp [clear_default_folder, h1, h2, get_default_folder_ok e2 _ h3,
    storeGet_storeDelete_self]

/-- Witness for C2 at a store that never had the key set, with a last
opened folder present. -/
theorem clear_then_get_default_folder_witness :
    envOkOk.openOk = true ∧ envOkOk.saveOk = true ∧
      (get_default_folder envOkOk
        (clear_default_folder envOkOk
          ⟨[("last_opened_folder", Json.str "/tmp")], []⟩).2).1 = .ok none :=
  ⟨rfl, rfl,
    clear_then_get_default_folder envOkOk envOkOk
      ⟨[("last_opened_folder", Json.str "/tmp")], []⟩ rfl rfl rfl⟩

/-- C3: setting the last opened folder leaves the value observed by
`get_default_folder` unchanged, and setting the default folder leaves the
value observed by `get_last_opened_folder` unchanged, over every store
state, every string and every open/save outcome. -/
theorem settings_key_independence (e1 e2 : Env) (st : StoreState)
    (s : String) :
    (get_default_folder e2 (set_last_opened_folder e1 s st).2).1 =
      (get_default_folder e2 st).1
    ∧ (get_last_opened_folder e2 (set_default_folder e1 s st).2).1 =
      (get_last_opened_folder e2 st).1 := by
  have hne : "last_opened_folder" ≠ "default_folder" := by decide
  constructor
  · cases ho : e1.openOk
    · simp [set_last_opened_folder, ho]
    · cases ho2 : e2.openOk
      · simp [get_default_folder, ho2]
      · cases hs : e1.saveOk <;>
          simp [set_last_opened_folder, ho, hs,
            get_default_folder_ok e2 _ ho2,
            storeGet_storeSet_ne _ _ _ _ hne]
  · cases ho : e1.openOk
    · simp [set_default_folder, ho]
    · cases ho2 : e2.openOk
      · simp [get_last_opened_folder, ho2]
      · cases hs : e1.saveOk <;>
          simp [set_default_folder, ho, hs,
            get_last_opened_folder_ok e2 _ ho2,
            storeGet_storeSet_ne _ _ _ _ hne.symm]

/-- C4: for every string s, `set_last_opened_folder s` followed by
`get_last_opened_folder` (both store opens and the save succeeding)
returns `Some s`. -/
theorem set_then_get_last_opened_folder (e1 e2 : Env) (st : StoreState)
    (s : String) (h1 : e1.openOk = true) (h2 : e1.saveOk = true)
    (h3 : e2.openOk = true) :
    (get_last_opened_folder e2 (set_last_opened_folder e1 s st).2).1 =
      .ok (some s) := by
  simp [set_last_opened_folder, h1, h2, get_last_opened_folder_ok e2 _ h3,
    storeGet_storeSet_self, Json.as_str]

/-- Witness for C4 at a concrete folder string and the fresh store. -/
theorem set_then_get_last_opened_folder_witness :
    envOkOk.openOk = true ∧ envOkOk.saveOk = true ∧
      (get_last_opened_folder envOkOk
        (set_last_opened_folder envOkOk "/tmp" freshStore).2).1 =
        .ok (some "/tmp") :=
  ⟨rfl, rfl,
    set_then_get_last_opened_folder envOkOk envOkOk freshStore "/tmp"
      rfl rfl rfl⟩

/-- C5: on a freshly created store with no prior writes,
`get_default_folder` returns `Ok None`, not an error. -/
theorem get_default_folder_fresh (e : Env) (h : e.openOk = true) :
    (get_default_folder e freshStore).1 = .ok none := by
  simp [get_default_folder_ok e _ h, freshStore, storeGet]

/-- Witness for C5 in the all-succeeding environment. -/
theorem get_default_folder_fresh_witness :
    envOkOk.openOk = true ∧
      (get_default_folder envOkOk freshStore).1 = .ok none :=
  ⟨rfl, get_default_folder_fresh envOkOk rfl⟩

/-- C6: each get command errors exactly when opening the store fails; if
the store opens, a missing or non-string value yields `Ok None`. -/
theorem get_error_iff_open_failure (e : Env) (st : StoreState) :
    ((∃ msg, (get_default_folder e st).1 = .error msg) ↔ e.openOk = false)
    ∧ ((∃ msg, (get_last_opened_folder e st).1 = .error msg) ↔
        e.openOk = false)
    ∧ (e.openOk = true →
        (storeGet st.inMem "default_folder").bind Json.as_str = none →
        (get_default_folder e st).1 = .ok none)
    ∧ (e.openOk = true →
        (storeGet st.inMem "last_opened_folder").bind Json.as_str = none →
        (get_last_opened_folder e st).1 = .ok none) := by
  cases ho : e.openOk
  · refine ⟨?_, ?_, ?_, ?_⟩
    · simp [get_default_folder, ho]
    · simp [get_last_opened_folder, ho]
    · intro h1
      exact absurd h1 (by simp [ho])
    · intro h1
      exact absurd h1 (by simp [ho])
  · refine ⟨?_, ?_, ?_, ?_⟩
    · simp [get_default_folder_ok e st ho]
    · simp [get_last_opened_folder_ok e st ho]
    · intro _ hnone
      simp [get_default_folder_ok e st ho, hnone]
    · intro _ hnone
      simp [get_last_opened_folder_ok e st ho, hnone]

/-- Witness for C6: a failing open errors, and on a store whose
`"default_folder"` holds the JSON number 3 a successful open yields
`Ok None`. -/
theorem get_error_iff_open_failure_witness :
    (∃ msg, (get_default_folder envOpenFail numStore).1 = .error msg)
    ∧ (get_default_folder envOkOk numStore).1 = .ok none := by
  constructor
  · exact (get_error_iff_open_failure envOpenFail numStore).1.mpr rfl
  · exact (get_error_iff_open_failure envOkOk numStore).2.2.1 rfl rfl

/-- C7 counterexample: on a store with no `"default_folder"` key the
delete step removes nothing, and `clear_default_folder` still reports
success — the delete outcome is never observable as an error. -/
theorem clear_ignores_delete_outcome :
    (storeDelete freshStore.inMem "default_folder").1 = false
    ∧ (clear_default_folder envOkOk freshStore).1 = .ok () :=
  ⟨rfl, rfl⟩

/-- C7 amended: `clear_default_folder` errors exactly when the store open
or the save fails; the delete step returns only whether the key was
present, and its outcome is ignored. -/
theorem clear_error_iff_open_or_save_failure (e : Env) (st : StoreState) :
    (∃ msg, (clear_default_folder e st).1 = .error msg) ↔
      (e.openOk = false ∨ e.saveOk = false) := by
  cases ho : e.openOk <;> cases hs : e.saveOk <;>
    simp [clear_default_folder, ho, hs]

/-- Witness for C7 amended: a failing save surfaces as an error even
though the delete removed nothing. -/
theorem clear_error_iff_open_or_save_failure_witness :
    (∃ msg, (clear_default_folder envSaveFail freshStore).1 = .error msg) :=
  (clear_error_iff_open_or_save_failure envSaveFail freshStore).mpr
    (Or.inr rfl)

/-- C8 counterexample: `set_default_folder ""` stores the empty string
verbatim, so after one operation the field is present and empty, not
absent-or-non-empty. -/
theorem empty_string_stored_verbatim :
    storeGet (runCmd envOkOk (Cmd.setDefault "") freshStore).inMem
      "default_folder" = some (Json.str "")
    ∧ (get_default_folder envOkOk
        (runCmd envOkOk (Cmd.setDefault "") freshStore)).1 =
        .ok (some "") :=
  ⟨rfl, rfl⟩

/-- C8 amended: after any sequence of the five settings operations from
the fresh store, each of the two settings fields is either absent or a
JSON string (stored verbatim, possibly empty); no operation can make a
stored field a non-string value. -/
theorem settings_fields_absent_or_string (ops : List (Env × Cmd)) :
    fieldShapeOk (runCmds ops freshStore).inMem "default_folder" = true
    ∧ fieldShapeOk (runCmds ops freshStore).inMem "last_opened_folder" =
      true := by
  have h := stateShapeOk_runCmds ops freshStore rfl
  simp only [stateShapeOk, Bool.and_eq_true] at h
  exact ⟨fieldShapeOk_of_storeShapeOk _ _ h.1,
    fieldShapeOk_of_storeShapeOk _ _ h.1⟩

/-- C9: starting from an empty store, every sequence of the five commands
leaves both the in-memory and the persisted `settings.json` map containing
only the keys `"default_folder"` and `"last_opened_folder"`, each bound to
a JSON string. -/
theorem store_contains_only_settings_keys (ops : List (Env × Cmd)) :
    storeShapeOk (runCmds ops freshStore).inMem = true
    ∧ storeShapeOk (runCmds ops freshStore).disk = true := by
  have h := stateShapeOk_runCmds ops freshStore rfl
  simpa [stateShapeOk] using h

/-- C10: the set commands are not atomic on error: when the store opens
but the save fails the command reports an error, yet the in-memory store
already holds the new value, so a subsequent get returns `Some` of the new
string. -/
theorem set_not_atomic_on_save_failure (st : StoreState)
    (s eo es : String) :
    (set_default_folder ⟨true, false, eo, es⟩ s st).1 = .error es
    ∧ (get_default_folder envOkOk
        (set_default_folder ⟨true, false, eo, es⟩ s st).2).1 =
        .ok (some s)
    ∧ (set_last_opened_folder ⟨true, false, eo, es⟩ s st).1 = .error es
    ∧ (get_last_opened_folder envOkOk
        (set_last_opened_folder ⟨true, false, eo, es⟩ s st).2).1 =
        .ok (some s) := by
  refine ⟨rfl, ?_, rfl, ?_⟩
  · simp [set_default_folder, get_default_folder_ok envOkOk _ rfl,
      storeGet_storeSet_self, Json.as_str]
  · simp [set_last_opened_folder, get_last_opened_folder_ok envOkOk _ rfl,
      storeGet_storeSet_self, Json.as_str]
